import Mathlib

/-!
Shallow embedding of the Telegram join-verification bot
(`src/backend_bot.py` and `src/JoinCloudFlare.py`).

The two Python files contain the same handler logic (the second adds a
`/bot` webhook endpoint).  The embedding below models:

* the module-level registries `APP_USER`, `APP_VERIFIED`, `APP_JOIN_SOURCE`
  as association lists with Python-dict update semantics (`RegState`),
* the command handlers `start`, `cmd_menu`, `cmd_stats`, `cmd_send_all`,
  `cmd_send`,
* the HTTP endpoints `check_join` and `telegram_webhook`,
* the startup configuration loading (`loadConfig`).

External effects are modelled as explicit inputs/outputs: the Telegram
`get_chat_member` call is an `OracleResult` input, per-recipient
`send_message` outcomes are an `Int → Option String` input (`none` =
success, `some e` = the exception text), admin notifications are recorded
as the list of `notify_admins` invocations (each invocation fans the text
out to every admin), and user-facing replies are recorded as the list of
`reply_text` calls (inline/reply keyboards are UI markup and are not
modelled beyond the reply text).
-/

namespace JoinBot

/-! ### Python string helpers -/

/-- Python's `\s` / `str.strip()` whitespace characters. -/
def isPySpace (c : Char) : Bool :=
  c = ' ' || c = '\t' || c = '\n' || c = '\r' || c = '\x0b' || c = '\x0c'

/-- Python `str.strip()`. -/
def pyStrip (s : String) : String :=
  String.mk (((s.toList.dropWhile isPySpace).reverse.dropWhile isPySpace).reverse)

/-- ASCII approximation of Python's regex `\w` character class. -/
def isWordChar (c : Char) : Bool :=
  c.isAlphanum || c = '_'

/-- Consume the literal `lit` from the front of `cs`. -/
def dropLiteral : List Char → List Char → Option (List Char)
  | [], cs => some cs
  | _ :: _, [] => none
  | l :: ls, c :: cs => if c = l then dropLiteral ls cs else none

/-- Consume the literal `lit` from the front of `cs`, case-insensitively
(models a regex compiled with `re.I`). -/
def dropLiteralCI : List Char → List Char → Option (List Char)
  | [], cs => some cs
  | _ :: _, [] => none
  | l :: ls, c :: cs => if c.toLower = l.toLower then dropLiteralCI ls cs else none

/-- Consume the optional bot-mention group `(?:@\w+)?`.  If the next
character is `@`, the group must match at least one word character;
otherwise backtracking cannot help because `\s+` cannot start at `@`. -/
def dropMention (cs : List Char) : Option (List Char) :=
  match cs with
  | '@' :: r =>
      if (r.takeWhile isWordChar).isEmpty then none
      else some (r.dropWhile isWordChar)
  | r => some r

/-- Models `re.match(r"^/start(?:@\w+)?\s+join_(.+)$", text)` followed by
`.group(1).strip()`.  `.` does not match a newline and, because the handler
strips `text` before matching, the string has no trailing newline, so `$`
is exactly end-of-input. -/
def parseStartPayload (text : String) : Option String :=
  match dropLiteral "/start".toList text.toList with
  | none => none
  | some r1 =>
    match dropMention r1 with
    | none => none
    | some r2 =>
      let sp := r2.takeWhile isPySpace
      let r3 := r2.dropWhile isPySpace
      if sp.isEmpty then none
      else
        match dropLiteral "join_".toList r3 with
        | none => none
        | some g =>
          if g.isEmpty || g.contains '\n' then none
          else some (pyStrip (String.mk g))

/-- Models `re.match(r"^/sendall(?:@\w+)?\s+(.+)$", full_text, flags=re.S | re.I)`
followed by `.group(1).strip()`.  With `re.S` the group matches any
characters; when only whitespace follows the command, `\s+` yields back a
single whitespace character to the group, whose strip is `""`. -/
def parseSendAllPayload (text : String) : Option String :=
  match dropLiteralCI "/sendall".toList text.toList with
  | none => none
  | some r1 =>
    match dropMention r1 with
    | none => none
    | some r2 =>
      let sp := r2.takeWhile isPySpace
      let rest := r2.dropWhile isPySpace
      if sp.isEmpty then none
      else if rest.isEmpty then
        if 2 ≤ sp.length then some "" else none
      else some (pyStrip (String.mk rest))

/-- Models Python `int(str)` on ASCII input: strip whitespace, optional
sign, one or more decimal digits. -/
def pyToInt (s : String) : Option Int :=
  let t := (pyStrip s).toList
  let core : List Char → Option Nat := fun ds =>
    if ds.isEmpty then none
    else if ds.all Char.isDigit then
      some (ds.foldl (fun n c => 10 * n + (c.toNat - '0'.toNat)) 0)
    else none
  match t with
  | '-' :: ds => (core ds).map (fun n => -(n : Int))
  | '+' :: ds => (core ds).map (fun n => (n : Int))
  | ds => (core ds).map (fun n => (n : Int))

/-! ### Python-dict association lists -/

/-- `d.get(k)` on an insertion-ordered association list. -/
def dictGet {β : Type} : List (String × β) → String → Option β
  | [], _ => none
  | (k', v) :: rest, k => if k = k' then some v else dictGet rest k

/-- `d[k] = v`: replace in place when the key exists (Python dicts keep
insertion order on overwrite), append otherwise. -/
def dictSet {β : Type} : List (String × β) → String → β → List (String × β)
  | [], k, v => [(k, v)]
  | (k', v') :: rest, k, v =>
      if k = k' then (k, v) :: rest else (k', v') :: dictSet rest k v

/-- `d.setdefault(k, v)`. -/
def dictSetdefault {β : Type} (m : List (String × β)) (k : String) (v : β) :
    List (String × β) :=
  match dictGet m k with
  | some _ => m
  | none => dictSet m k v

theorem dictGet_dictSet_self {β : Type} (m : List (String × β)) (k : String) (v : β) :
    dictGet (dictSet m k v) k = some v := by
  induction m with
  | nil => simp [dictGet, dictSet]
  | cons p rest ih =>
      obtain ⟨k', v'⟩ := p
      by_cases h : k = k' <;> simp [dictGet, dictSet, h, ih]

theorem dictGet_dictSet_ne {β : Type} (m : List (String × β)) (k k' : String) (v : β)
    (h : k' ≠ k) : dictGet (dictSet m k v) k' = dictGet m k' := by
  induction m with
  | nil => simp [dictGet, dictSet, h]
  | cons p rest ih =>
      obtain ⟨k'', v''⟩ := p
      by_cases h1 : k = k''
      · subst h1; simp [dictGet, dictSet, h]
      · by_cases h2 : k' = k'' <;> simp [dictGet, dictSet, h1, h2, ih]

theorem dictGet_dictSetdefault_self {β : Type} (m : List (String × β)) (k : String) (v : β) :
    dictGet (dictSetdefault m k v) k =
      (match dictGet m k with | some w => some w | none => some v) := by
  unfold dictSetdefault
  match h : dictGet m k with
  | some w => simp [h]
  | none => simp [h, dictGet_dictSet_self]

theorem dictGet_dictSetdefault_ne {β : Type} (m : List (String × β)) (k k' : String) (v : β)
    (h : k' ≠ k) : dictGet (dictSetdefault m k v) k' = dictGet m k' := by
  unfold dictSetdefault
  match hm : dictGet m k with
  | some w => rfl
  | none => exact dictGet_dictSet_ne m k k' v h

/-! ### Data model -/

/-- The three module-level registries. -/
structure RegState where
  appUser : List (String × Int)
  appVerified : List (String × Bool)
  appJoinSource : List (String × Nat)
deriving DecidableEq

/-- Registries at process start (empty dicts). -/
def initState : RegState := ⟨[], [], []⟩

structure TgUser where
  id : Int
  username : Option String
deriving DecidableEq

/-- The parts of a Telegram message the handlers read: `message.text`,
`message.reply_to_message.text`, and `context.args`. -/
structure Msg where
  text : Option String
  replyToText : Option String
  args : List String
deriving DecidableEq

/-- Outcome of a `get_chat_member` call: a status string, or a raised
exception. -/
inductive OracleResult where
  | ok (status : String)
  | err
deriving DecidableEq

/-- `status in ("member", "administrator", "creator")`. -/
def isMemberStatus (status : String) : Bool :=
  status == "member" || status == "administrator" || status == "creator"

/-- What a command handler produces: the new registries, the `reply_text`
calls, and the `notify_admins` invocations. -/
structure HandlerResult where
  state : RegState
  replies : List String
  adminNotifs : List String
deriving DecidableEq

/-! ### Message texts -/

def msg_greeting : String :=
  "سلام! برای تأیید عضویت، از داخل اپلیکیشن روی لینک این ربات بزن."

def msg_check_failed : String :=
  "در بررسی عضویت مشکلی پیش اومد. چند لحظه بعد از اپ دوباره امتحان کن."

def msg_verified : String :=
  "عضویت‌ات در کانال تأیید شد ✅\nحالا به اپلیکیشن برگرد و روی «چک عضویت» بزن."

def msg_not_member : String :=
  "هنوز عضو کانال نیستی.\nبرای عضویت روی دکمهٔ زیر بزن، بعد برگرد اپ و دوباره روی لینک ربات بزن."

def notif_pre_existing : String :=
  "✅ کاربر قدیم عضو کانال شده بود؛ عضویت تأیید شد"

def notif_joined_later : String :=
  "✅ کاربر جدید عضو کانال شد (بعد از کار با ربات)"

def notif_joined_later_cj : String :=
  "✅ کاربر جدید عضو کانال شد (بعد از کار با ربات، در check_join)"

def notifText (header : String) (uid : Int) (username : String) (appId : String) : String :=
  header ++ "\n\nuser_id: " ++ toString uid ++ "\nusername: " ++ username
    ++ "\napp_id: " ++ appId

/-- `f"@{user.username}" if user.username else "-"` (empty string is falsy). -/
def usernameTag (username : Option String) : String :=
  match username with
  | some u => if u = "" then "-" else "@" ++ u
  | none => "-"

/-! ### The `start` handler -/

/-- The `start` handler.  The membership check `get_chat_member` is
provided as the `oracle` input; the inline keyboard with the join URL of
the not-a-member reply is UI markup and only its reply text is recorded. -/
def start (st : RegState) (user? : Option TgUser) (msg? : Option Msg)
    (oracle : OracleResult) : HandlerResult :=
  match msg?, user? with
  | some message, some user =>
    let text := pyStrip (message.text.getD "")
    match parseStartPayload text with
    | none => ⟨st, [msg_greeting], []⟩
    | some app_id =>
      let st1 : RegState := { st with appUser := dictSet st.appUser app_id user.id }
      let prev_verified := dictGet st1.appVerified app_id
      match oracle with
      | .err => ⟨st1, [msg_check_failed], []⟩
      | .ok status =>
        let is_member_now := isMemberStatus status
        if is_member_now then
          let st2 : RegState :=
            { st1 with appVerified := dictSet st1.appVerified app_id true }
          let username := usernameTag user.username
          match prev_verified with
          | none =>
            let st3 : RegState :=
              { st2 with appJoinSource := dictSet st2.appJoinSource app_id 1 }
            ⟨st3, [msg_verified], [notifText notif_pre_existing user.id username app_id]⟩
          | some false =>
            let st3 : RegState :=
              { st2 with appJoinSource := dictSet st2.appJoinSource app_id 2 }
            ⟨st3, [msg_verified], [notifText notif_joined_later user.id username app_id]⟩
          | some true =>
            ⟨st2, [msg_verified], []⟩
        else
          let st2 : RegState :=
            { st1 with appVerified := dictSet st1.appVerified app_id false,
                       appJoinSource := dictSetdefault st1.appJoinSource app_id 0 }
          ⟨st2, [msg_not_member], []⟩
  | _, _ => ⟨st, [], []⟩

/-! ### Admin commands -/

def msg_admin_menu : String := "منوی ادمین:"

def msg_sendall_usage : String :=
  "برای ارسال پیام به همه:\n۱) روی متنی که می‌خواهی بفرستی ریپلای بزن و /sendAll بفرست.\n۲) یا این‌طور بزن:\n/sendAll متن پیام"

def msg_empty_text : String := "متن پیام خالی است."

def msg_no_users : String := "هنوز هیچ کاربری با ربات کار نکرده."

def msg_send_usage : String :=
  "استفاده:\n/send <user_id> <متن پیام>\n\nمثال:\n/send 123456789 سلام تست"

def msg_user_id_numeric : String := "user_id باید عدد باشد."

def msg_send_ok : String :=
  "پیام تست به کاربر ارسال شد (اگر تلگرام اجازه داده باشد)."

/-- Both `except TelegramError` and the generic `except Exception` branch of
`cmd_send` reply with the exception text. -/
def msg_send_err (e : String) : String := "خطا:\n" ++ e

def msg_broadcast_begin (n : Nat) : String :=
  "ارسال پیام به " ++ toString n ++ " کاربر شروع شد، کمی صبر کن..."

def joinLines (l : List String) : String := String.intercalate "\n" l

def msg_broadcast_summary (sent failed : Nat) (errors : List String) : String :=
  let base := "ارسال پیام گروهی تمام شد.\n✅ موفق: " ++ toString sent
    ++ "\n❌ ناموفق: " ++ toString failed
  if errors.isEmpty then base
  else base ++ "\n\nنمونه خطاها (حداکثر ۱۰ مورد):\n" ++ joinLines (errors.take 10)

def statsText (total_app_ids total_users verified_app_ids verified_users : Nat) : String :=
  "📊 آمار ربات Join\n\n🔹 تعداد app_idهای ثبت‌شده: " ++ toString total_app_ids
    ++ "\n👥 تعداد کاربران یکتا که تا حالا از ربات استفاده کرده‌اند: " ++ toString total_users
    ++ "\n✅ تعداد app_idهای تأیید‌شده: " ++ toString verified_app_ids
    ++ "\n✅ کاربران یکتای تأیید‌شده (حداقل یک app_id تأیید شده): " ++ toString verified_users
    ++ "\n\nنکته: این آمار فقط تا وقتی پروسهٔ فعلی در حال اجراست نگه‌داری می‌شود و با ری‌استارت سرور صفر می‌شود (چون دیتابیس نداریم)."

/-- Remove duplicate `Int`s (a Python `set`; relative order is irrelevant
because the caller sorts). -/
def dedupInts : List Int → List Int
  | [] => []
  | x :: xs => if x ∈ xs then dedupInts xs else x :: dedupInts xs

def insertSorted (x : Int) : List Int → List Int
  | [] => [x]
  | y :: ys => if x ≤ y then x :: y :: ys else y :: insertSorted x ys

/-- Python `sorted` (insertion sort; stability is irrelevant on distinct
elements). -/
def sortInts (l : List Int) : List Int := l.foldr insertSorted []

/-- `sorted({uid for uid in APP_USER.values() if uid})`. -/
def userIds (st : RegState) : List Int :=
  sortInts (dedupInts ((st.appUser.map Prod.snd).filter (fun u => u != 0)))

/-- `cmd_menu`: admin-gated; replies with the admin keyboard. -/
def cmd_menu (adminIds : List Int) (st : RegState) (user? : Option TgUser)
    (msg? : Option Msg) : HandlerResult :=
  match user?, msg? with
  | some user, some _ =>
    if user.id ∈ adminIds then ⟨st, [msg_admin_menu], []⟩ else ⟨st, [], []⟩
  | _, _ => ⟨st, [], []⟩

/-- `cmd_stats`: admin-gated; computes the four counters and replies. -/
def cmd_stats (adminIds : List Int) (st : RegState) (user? : Option TgUser)
    (msg? : Option Msg) : HandlerResult :=
  match user?, msg? with
  | some user, some _ =>
    if user.id ∈ adminIds then
      let total_app_ids := st.appUser.length
      let unique_users := dedupInts ((st.appUser.map Prod.snd).filter (fun u => u != 0))
      let total_users := unique_users.length
      let verified_app_ids := (st.appVerified.filter (fun p => p.2)).length
      let verified_users :=
        (dedupInts (st.appVerified.filterMap
          (fun p => if p.2 then dictGet st.appUser p.1 else none))).length
      ⟨st, [statsText total_app_ids total_users verified_app_ids verified_users], []⟩
    else ⟨st, [], []⟩
  | _, _ => ⟨st, [], []⟩

/-- The error line `f"{uid}: {e}"` appended for a failed broadcast send. -/
def errLine (uid : Int) (res : Option String) : String :=
  toString uid ++ ": " ++ res.getD ""

/-- The broadcast loop: for each recipient attempt a send; count successes
and failures and collect one error line per failure.  `sendRes uid = none`
means the send succeeded, `some e` that it raised `e`. -/
def sendAllLoop (sendRes : Int → Option String) : List Int → Nat × Nat × List String
  | [] => (0, 0, [])
  | uid :: rest =>
    let r := sendAllLoop sendRes rest
    match sendRes uid with
    | none => (r.1 + 1, r.2.1, r.2.2)
    | some e => (r.1, r.2.1 + 1, errLine uid (some e) :: r.2.2)

/-- The broadcast text: the replied-to message text when present and
non-empty, otherwise the `/sendall <text>` payload. -/
def sendAllText (msg : Msg) : Option String :=
  match msg.replyToText with
  | some t => if t ≠ "" then some t else parseSendAllPayload (msg.text.getD "")
  | none => parseSendAllPayload (msg.text.getD "")

structure SendAllResult where
  state : RegState
  replies : List String
  adminNotifs : List String
  sent : Nat
  failed : Nat
  errors : List String
deriving DecidableEq

def SendAllResult.toHandler (r : SendAllResult) : HandlerResult :=
  ⟨r.state, r.replies, r.adminNotifs⟩

/-- `cmd_send_all`: admin-gated broadcast to every distinct non-zero user
id in `APP_USER`, with a tally reply. -/
def cmd_send_all (adminIds : List Int) (st : RegState) (user? : Option TgUser)
    (msg? : Option Msg) (sendRes : Int → Option String) : SendAllResult :=
  match user?, msg? with
  | some user, some msg =>
    if user.id ∈ adminIds then
      match sendAllText msg with
      | none => ⟨st, [msg_sendall_usage], [], 0, 0, []⟩
      | some text =>
        if text = "" then ⟨st, [msg_empty_text], [], 0, 0, []⟩
        else
          let user_ids := userIds st
          if user_ids.isEmpty then ⟨st, [msg_no_users], [], 0, 0, []⟩
          else
            let r := sendAllLoop sendRes user_ids
            ⟨st, [msg_broadcast_begin user_ids.length,
                  msg_broadcast_summary r.1 r.2.1 r.2.2], [], r.1, r.2.1, r.2.2⟩
    else ⟨st, [], [], 0, 0, []⟩
  | _, _ => ⟨st, [], [], 0, 0, []⟩

/-- `cmd_send`: admin-gated direct send to one user id. -/
def cmd_send (adminIds : List Int) (st : RegState) (user? : Option TgUser)
    (msg? : Option Msg) (sendRes : Int → Option String) : HandlerResult :=
  match user?, msg? with
  | some user, some msg =>
    if user.id ∈ adminIds then
      if msg.args.length < 2 then ⟨st, [msg_send_usage], []⟩
      else
        match pyToInt (msg.args.headD "") with
        | none => ⟨st, [msg_user_id_numeric], []⟩
        | some target_id =>
          let text := pyStrip (String.intercalate " " (msg.args.drop 1))
          if text = "" then ⟨st, [msg_empty_text], []⟩
          else
            match sendRes target_id with
            | none => ⟨st, [msg_send_ok], []⟩
            | some e => ⟨st, [msg_send_err e], []⟩
    else ⟨st, [], []⟩
  | _, _ => ⟨st, [], []⟩

/-! ### The `check_join` endpoint -/

inductive CJResponse where
  | httpExc (code : Nat)
  | json (verified : Bool)
deriving DecidableEq

structure CJResult where
  state : RegState
  response : CJResponse
  /-- Number of `get_chat_member` (Membership Oracle) invocations. -/
  oracleCalls : Nat
  adminNotifs : List String
deriving DecidableEq

/-- `GET /check_join?app_id=&secret=`.  `chatUsername?` is the result of
the `get_chat(user_id)` call used only to decorate the notification
(`none` covers both a raised exception and an absent username). -/
def check_join (apiSecret : String) (st : RegState) (botReady : Bool)
    (appId secret : String) (oracle : OracleResult) (chatUsername? : Option String) :
    CJResult :=
  if secret ≠ apiSecret then ⟨st, .httpExc 403, 0, []⟩
  else if botReady = false then ⟨st, .httpExc 500, 0, []⟩
  else
    match dictGet st.appUser appId with
    | none => ⟨st, .json false, 0, []⟩
    | some user_id =>
      -- `if not user_id:` — a stored id of 0 is falsy in Python
      if user_id = 0 then ⟨st, .json false, 0, []⟩
      else
        let prev_verified := dictGet st.appVerified appId
        let verified : Bool :=
          match oracle with
          | .ok status => isMemberStatus status
          | .err => false
        let st1 : RegState :=
          { st with appVerified := dictSet st.appVerified appId verified }
        if verified && prev_verified == some false then
          let st2 : RegState :=
            { st1 with appJoinSource := dictSet st1.appJoinSource appId 2 }
          let username :=
            match chatUsername? with
            | some u => if u = "" then "-" else "@" ++ u
            | none => "-"
          ⟨st2, .json verified, 1,
           [notifText notif_joined_later_cj user_id username appId]⟩
        else ⟨st1, .json verified, 1, []⟩

/-! ### The `/bot` webhook and the command router -/

/-- A platform update routed by `Application.process_update` to one of the
registered command handlers, carrying the environment outcomes the handler
will observe. -/
inductive Cmd where
  | cStart (user? : Option TgUser) (msg? : Option Msg) (oracle : OracleResult)
  | cMenu (user? : Option TgUser) (msg? : Option Msg)
  | cStats (user? : Option TgUser) (msg? : Option Msg)
  | cSendAll (user? : Option TgUser) (msg? : Option Msg) (sendRes : Int → Option String)
  | cSend (user? : Option TgUser) (msg? : Option Msg) (sendRes : Int → Option String)

/-- The Inbound Command Router (`process_update` dispatch). -/
def processCmd (adminIds : List Int) (st : RegState) : Cmd → HandlerResult
  | .cStart u m o => start st u m o
  | .cMenu u m => cmd_menu adminIds st u m
  | .cStats u m => cmd_stats adminIds st u m
  | .cSendAll u m f => (cmd_send_all adminIds st u m f).toHandler
  | .cSend u m f => cmd_send adminIds st u m f

/-- A webhook request body, as seen by `telegram_webhook`:
`invalidJson` — `await request.json()` raises (body is not valid JSON);
`jsonNotUpdate e` — `Update.de_json`/`process_update` raises `e` inside the
`try`; `jsonUpdate c` — a well-formed update routed to a handler. -/
inductive WebhookBody where
  | invalidJson
  | jsonNotUpdate (e : String)
  | jsonUpdate (c : Cmd)

inductive WebhookResponse where
  | httpExc (code : Nat)
  /-- `JSONResponse({"status": "ok"})`, HTTP 200. -/
  | okStatus
  /-- `JSONResponse({"status": "error", "message": e}, status_code=200)`. -/
  | errStatus (e : String)
  /-- An exception escaped the endpoint (the framework turns it into a
  500, not a 200 status body). -/
  | uncaughtError
deriving DecidableEq

/-- Whether a webhook response is an HTTP-200 status body. -/
def isStatus200 : WebhookResponse → Bool
  | .okStatus => true
  | .errStatus _ => true
  | _ => false

structure WebhookResult where
  state : RegState
  response : WebhookResponse
  routerInvoked : Bool
  replies : List String
  adminNotifs : List String

/-- `POST /bot` (`src/JoinCloudFlare.py`).  Note: the handler reads no
request header at all — `secretHeader` is provided to the model so that
header-(in)dependence can be stated, and never used. -/
def telegram_webhook (adminIds : List Int) (st : RegState) (botReady : Bool)
    (_secretHeader : Option String) (body : WebhookBody) : WebhookResult :=
  if botReady = false then ⟨st, .httpExc 500, false, [], []⟩
  else
    match body with
    | .invalidJson => ⟨st, .uncaughtError, false, [], []⟩
    | .jsonNotUpdate e => ⟨st, .errStatus e, false, [], []⟩
    | .jsonUpdate c =>
      let r := processCmd adminIds st c
      ⟨r.state, .okStatus, true, r.replies, r.adminNotifs⟩

/-! ### Startup configuration -/

structure Env where
  botToken : Option String
  requiredChannel : Option String
  apiSecret : Option String
  adminIdsVar : Option String
deriving DecidableEq

structure Config where
  botToken : String
  requiredChannel : String
  apiSecret : String
  adminIds : List Int
deriving DecidableEq

def allInts : List String → Option (List Int)
  | [] => some []
  | p :: ps =>
    match pyToInt p, allInts ps with
    | some i, some is => some (i :: is)
    | _, _ => none

/-- `ADMIN_IDS` parsing: remove spaces; if non-empty, try to parse every
comma piece (skipping empty pieces); a single `ValueError` leaves the set
empty. -/
def parseAdminIds (raw : String) : List Int :=
  let s := String.mk (raw.toList.filter (fun c => c != ' '))
  if s = "" then []
  else
    match allInts ((s.splitOn ",").filter (fun p => p != "")) with
    | some ids => dedupInts ids
    | none => []

/-- Module-level configuration loading.  Only a missing (or empty)
`BOT_TOKEN` raises; `REQUIRED_CHANNEL` and `API_SECRET` fall back to their
defaults. -/
def loadConfig (env : Env) : Except String Config :=
  match env.botToken with
  | none => .error "BOT_TOKEN تنظیم نشده است."
  | some tok =>
    if tok = "" then .error "BOT_TOKEN تنظیم نشده است."
    else .ok
      { botToken := tok
        requiredChannel := env.requiredChannel.getD "@NuLimit"
        apiSecret := env.apiSecret.getD "change_this_secret"
        adminIds := parseAdminIds (env.adminIdsVar.getD "") }

/-! ### Operation sequences (for trace invariants) -/

/-- One externally triggered operation: an inbound update handled by the
router, or a `check_join` poll. -/
inductive Op where
  | update (c : Cmd)
  | checkJoin (botReady : Bool) (appId secret : String) (oracle : OracleResult)
      (chatUsername? : Option String)

def stepOp (apiSecret : String) (adminIds : List Int) (st : RegState) : Op → RegState
  | .update c => (processCmd adminIds st c).state
  | .checkJoin ready a s o u => (check_join apiSecret st ready a s o u).state

def runOps (apiSecret : String) (adminIds : List Int) (st : RegState)
    (ops : List Op) : RegState :=
  ops.foldl (stepOp apiSecret adminIds) st

/-! ### Claims about the HTTP boundary and configuration -/

/-- C3 (counterexample): a `POST /bot` request whose shared-secret header
does not match any configured value (here `"wrong-secret"`) is NOT
rejected with 401 — the Inbound Command Router is invoked and the response
is the 200 `ok` status body.  The handler never reads a header. -/
theorem C3_cex :
    (telegram_webhook [] initState true (some "wrong-secret")
        (WebhookBody.jsonUpdate (Cmd.cMenu none none))).routerInvoked = true ∧
    (telegram_webhook [] initState true (some "wrong-secret")
        (WebhookBody.jsonUpdate (Cmd.cMenu none none))).response ≠
      WebhookResponse.httpExc 401 := by
  refine ⟨rfl, ?_⟩
  intro h
  simp [telegram_webhook, processCmd, cmd_menu] at h

/-- C3 (amended): the `POST /bot` webhook performs no shared-secret header
check at all.  Its result is independent of the header value, it never
returns 401, and with an initialized bot every parseable update is routed
regardless of the header. -/
theorem C3_webhook_header_independent (adminIds : List Int) (st : RegState)
    (ready : Bool) (h h' : Option String) (body : WebhookBody) :
    telegram_webhook adminIds st ready h body =
      telegram_webhook adminIds st ready h' body ∧
    (∀ c, (telegram_webhook adminIds st true h
        (WebhookBody.jsonUpdate c)).routerInvoked = true) ∧
    (∀ b, (telegram_webhook adminIds st ready h b).response ≠
        WebhookResponse.httpExc 401) := by
  refine ⟨rfl, fun c => rfl, fun b => ?_⟩
  cases ready with
  | false => simp [telegram_webhook]
  | true => cases b <;> simp [telegram_webhook]

/-- C3 (witness): the amended statement at a concrete input. -/
theorem C3_webhook_header_independent_witness :
    telegram_webhook [] initState true (some "a") WebhookBody.invalidJson =
      telegram_webhook [] initState true (some "b") WebhookBody.invalidJson ∧
    (∀ c, (telegram_webhook [] initState true (some "a")
        (WebhookBody.jsonUpdate c)).routerInvoked = true) ∧
    (∀ b, (telegram_webhook [] initState true (some "a") b).response ≠
        WebhookResponse.httpExc 401) :=
  C3_webhook_header_independent [] initState true (some "a") (some "b")
    WebhookBody.invalidJson

/-- C5 (counterexample): with an initialized bot, a request body that is
not valid JSON makes `await request.json()` raise outside the
`try`/`except`, so the exception escapes the endpoint and the response is
NOT an HTTP-200 status body (the framework turns it into a 500). -/
theorem C5_cex :
    isStatus200 (telegram_webhook [] initState true none
        WebhookBody.invalidJson).response = false ∧
    (telegram_webhook [] initState true none WebhookBody.invalidJson).response =
      WebhookResponse.uncaughtError := by
  exact ⟨rfl, rfl⟩

/-- C5 (amended): with an initialized bot the webhook answers HTTP 200
with a status body when the JSON body fails `Update.de_json`/processing
(the `try` catches it) and when processing succeeds; but a body that fails
JSON parsing raises before the `try` and the exception escapes the
endpoint — it is not acknowledged with a 200. -/
theorem C5_webhook_ack (adminIds : List Int) (st : RegState) (h : Option String)
    (e : String) (c : Cmd) :
    (telegram_webhook adminIds st true h (WebhookBody.jsonNotUpdate e)).response =
      WebhookResponse.errStatus e ∧
    isStatus200 (telegram_webhook adminIds st true h
        (WebhookBody.jsonNotUpdate e)).response = true ∧
    (telegram_webhook adminIds st true h (WebhookBody.jsonUpdate c)).response =
      WebhookResponse.okStatus ∧
    (telegram_webhook adminIds st true h WebhookBody.invalidJson).response =
      WebhookResponse.uncaughtError :=
  ⟨rfl, rfl, rfl, rfl⟩

/-- C7 (counterexample): an environment with a bot token but with the
shared secret and the required channel missing loads successfully,
falling back to the defaults — startup does not fail. -/
theorem C7_cex :
    loadConfig ⟨some "token123", none, none, none⟩ =
      Except.ok ⟨"token123", "@NuLimit", "change_this_secret", []⟩ := by
  rfl

/-- C7 (amended): startup fails exactly when the bot token is missing or
empty; a missing required channel or shared secret does not fail startup
but falls back to `"@NuLimit"` / `"change_this_secret"`. -/
theorem C7_startup_requirements (env : Env) :
    ((∃ c, loadConfig env = Except.ok c) ↔
      ¬(env.botToken = none ∨ env.botToken = some "")) ∧
    (∀ c, loadConfig env = Except.ok c →
      (env.apiSecret = none → c.apiSecret = "change_this_secret") ∧
      (env.requiredChannel = none → c.requiredChannel = "@NuLimit")) := by
  obtain ⟨tok?, ch?, sec?, adm?⟩ := env
  constructor
  · cases tok? with
    | none => simp [loadConfig]
    | some tok =>
        by_cases htok : tok = "" <;> simp [loadConfig, htok]
  · intro c hc
    cases tok? with
    | none => simp [loadConfig] at hc
    | some tok =>
        by_cases htok : tok = ""
        · simp [loadConfig, htok] at hc
        · simp only [loadConfig, if_neg htok, Except.ok.injEq] at hc
          subst hc
          constructor
          · intro hs; subst hs; rfl
          · intro hch; subst hch; rfl

/-- C7 (witness): the amended statement at a concrete environment. -/
theorem C7_startup_requirements_witness :
    ((∃ c, loadConfig ⟨some "t", none, none, none⟩ = Except.ok c) ↔
      ¬((some "t" : Option String) = none ∨ (some "t" : Option String) = some "")) ∧
    (∀ c, loadConfig ⟨some "t", none, none, none⟩ = Except.ok c →
      ((none : Option String) = none → c.apiSecret = "change_this_secret") ∧
      ((none : Option String) = none → c.requiredChannel = "@NuLimit")) :=
  C7_startup_requirements ⟨some "t", none, none, none⟩

/-- C4: a `GET /check_join` with the correct secret for an `app_id` that
has no entry in `APP_USER` returns `{"verified": false}` immediately: the
Membership Oracle is not called and no registry is mutated. -/
theorem C4_unclaimed_app_id (apiSecret : String) (st : RegState) (appId : String)
    (oracle : OracleResult) (chatU : Option String)
    (h : dictGet st.appUser appId = none) :
    check_join apiSecret st true appId apiSecret oracle chatU =
      ⟨st, CJResponse.json false, 0, []⟩ := by
  unfold check_join
  simp [h]

/-- C4 (witness): the theorem at a concrete fresh registry. -/
theorem C4_unclaimed_app_id_witness :
    check_join "s" initState true "A" "s" OracleResult.err none =
      ⟨initState, CJResponse.json false, 0, []⟩ :=
  C4_unclaimed_app_id "s" initState "A" OracleResult.err none rfl

/-- C10: in `check_join` for a claimed `app_id`, a failed membership
lookup is treated as "not a member": `APP_VERIFIED[app_id]` is set to
`false` (overwriting any previous value, including `true`), no
notification is sent, and the endpoint still returns HTTP 200 with
`{"verified": false}` — the failure never propagates to the caller. -/
theorem C10_check_join_oracle_failure (apiSecret : String) (st : RegState)
    (appId : String) (uid : Int) (chatU : Option String)
    (hu : dictGet st.appUser appId = some uid) (hz : uid ≠ 0) :
    check_join apiSecret st true appId apiSecret OracleResult.err chatU =
      ⟨{ st with appVerified := dictSet st.appVerified appId false },
       CJResponse.json false, 1, []⟩ ∧
    dictGet (dictSet st.appVerified appId false) appId = some false := by
  refine ⟨?_, dictGet_dictSet_self _ _ _⟩
  unfold check_join
  simp [hu, hz]

/-- C10 (witness): the theorem at a registry whose prior verified value
is `true`, showing the overwrite. -/
theorem C10_check_join_oracle_failure_witness :
    check_join "s" ⟨[("A", 5)], [("A", true)], [("A", 1)]⟩ true "A" "s"
        OracleResult.err none =
      ⟨⟨[("A", 5)], [("A", false)], [("A", 1)]⟩, CJResponse.json false, 1, []⟩ ∧
    dictGet (dictSet [("A", true)] "A" false) "A" = some false :=
  C10_check_join_oracle_failure "s" ⟨[("A", 5)], [("A", true)], [("A", 1)]⟩
    "A" 5 none rfl (by decide)

/-- C9: in the `/start` deep-link flow, when the membership lookup raises,
the handler has already bound `APP_USER[app_id]` to the caller's id, while
`APP_VERIFIED` and `APP_JOIN_SOURCE` are left untouched and no
notification is sent — so the `app_id` can exist in `APP_USER` with no
verified entry, and a later check still sees the prev-unknown state. -/
theorem C9_start_oracle_failure (st : RegState) (u : TgUser) (txt appId : String)
    (hp : parseStartPayload (pyStrip txt) = some appId) :
    start st (some u) (some ⟨some txt, none, []⟩) OracleResult.err =
      ⟨{ st with appUser := dictSet st.appUser appId u.id },
       [msg_check_failed], []⟩ ∧
    dictGet (dictSet st.appUser appId u.id) appId = some u.id := by
  refine ⟨?_, dictGet_dictSet_self _ _ _⟩
  unfold start
  simp [hp]

/-- C9 (witness): the theorem at a fresh registry; the verified map stays
empty. -/
theorem C9_start_oracle_failure_witness :
    start initState (some ⟨5, none⟩) (some ⟨some "/start join_X", none, []⟩)
        OracleResult.err =
      ⟨{ initState with appUser := dictSet initState.appUser "X" 5 },
       [msg_check_failed], []⟩ ∧
    dictGet (dictSet initState.appUser "X" 5) "X" = some 5 :=
  C9_start_oracle_failure initState ⟨5, none⟩ "/start join_X" "X" rfl

/-- C8: each admin-only handler (`cmd_menu`, `cmd_stats`, `cmd_send_all`,
`cmd_send`) invoked by a user outside the admin set sends no reply, sends
no notification, and leaves all three registries unchanged. -/
theorem C8_unauthorized_is_noop (adminIds : List Int) (st : RegState) (u : TgUser)
    (m : Option Msg) (sendRes : Int → Option String) (h : u.id ∉ adminIds) :
    cmd_menu adminIds st (some u) m = ⟨st, [], []⟩ ∧
    cmd_stats adminIds st (some u) m = ⟨st, [], []⟩ ∧
    cmd_send_all adminIds st (some u) m sendRes = ⟨st, [], [], 0, 0, []⟩ ∧
    cmd_send adminIds st (some u) m sendRes = ⟨st, [], []⟩ := by
  cases m with
  | none => exact ⟨rfl, rfl, rfl, rfl⟩
  | some msg =>
      refine ⟨?_, ?_, ?_, ?_⟩ <;>
        simp [cmd_menu, cmd_stats, cmd_send_all, cmd_send, h]

/-- C8 (witness): the theorem for a concrete non-admin user. -/
theorem C8_unauthorized_is_noop_witness :
    cmd_menu [1] ⟨[("A", 5)], [], []⟩ (some ⟨42, none⟩)
        (some ⟨some "/stats", none, []⟩) = ⟨⟨[("A", 5)], [], []⟩, [], []⟩ ∧
    cmd_stats [1] ⟨[("A", 5)], [], []⟩ (some ⟨42, none⟩)
        (some ⟨some "/stats", none, []⟩) = ⟨⟨[("A", 5)], [], []⟩, [], []⟩ ∧
    cmd_send_all [1] ⟨[("A", 5)], [], []⟩ (some ⟨42, none⟩)
        (some ⟨some "/stats", none, []⟩) (fun _ => none) =
      ⟨⟨[("A", 5)], [], []⟩, [], [], 0, 0, []⟩ ∧
    cmd_send [1] ⟨[("A", 5)], [], []⟩ (some ⟨42, none⟩)
        (some ⟨some "/stats", none, []⟩) (fun _ => none) =
      ⟨⟨[("A", 5)], [], []⟩, [], []⟩ :=
  C8_unauthorized_is_noop [1] ⟨[("A", 5)], [], []⟩ ⟨42, none⟩
    (some ⟨some "/stats", none, []⟩) (fun _ => none) (by decide)

/-! ### Claim C1: the /start reconciliation decision table -/

/-- C1: in the `/start` deep-link flow on a claimed `app_id` with the
membership lookup succeeding: if the reported status is a member status,
then `verified` becomes `true` and — when the prior verified state was
unknown — `join_source` becomes 1 with exactly one `notify_admins`
invocation; when it was `false` — `join_source` becomes 2 with exactly one
invocation; when it was `true` — no notification and `join_source`
untouched.  If the reported status is a non-member status, `verified`
becomes `false`, `join_source` is set to 0 only when unset, and no
notification is sent. -/
theorem C1_start_reconciliation (st : RegState) (u : TgUser)
    (txt appId status : String) (r : HandlerResult)
    (hp : parseStartPayload (pyStrip txt) = some appId)
    (hr : r = start st (some u) (some ⟨some txt, none, []⟩) (OracleResult.ok status)) :
    (isMemberStatus status = true →
       dictGet r.state.appVerified appId = some true ∧
       (dictGet st.appVerified appId = none →
          dictGet r.state.appJoinSource appId = some 1 ∧ r.adminNotifs.length = 1) ∧
       (dictGet st.appVerified appId = some false →
          dictGet r.state.appJoinSource appId = some 2 ∧ r.adminNotifs.length = 1) ∧
       (dictGet st.appVerified appId = some true →
          r.adminNotifs = [] ∧
          dictGet r.state.appJoinSource appId = dictGet st.appJoinSource appId)) ∧
    (isMemberStatus status = false →
       dictGet r.state.appVerified appId = some false ∧
       r.adminNotifs = [] ∧
       (dictGet st.appJoinSource appId = none →
          dictGet r.state.appJoinSource appId = some 0) ∧
       (dictGet st.appJoinSource appId ≠ none →
          dictGet r.state.appJoinSource appId = dictGet st.appJoinSource appId)) := by
  subst hr
  simp only [start, Option.getD_some, hp]
  constructor
  · intro hm
    simp only [hm, if_true]
    cases hv : dictGet st.appVerified appId with
    | none =>
        simp [hv, dictGet_dictSet_self]
    | some b =>
        cases b with
        | false => simp [hv, dictGet_dictSet_self]
        | true => simp [hv, dictGet_dictSet_self]
  · intro hm
    simp only [hm, Bool.false_eq_true, if_false]
    refine ⟨dictGet_dictSet_self _ _ _, trivial, ?_, ?_⟩
    · intro hj
      simp [dictGet_dictSetdefault_self, hj]
    · intro hj
      obtain ⟨w, hw⟩ := Option.ne_none_iff_exists'.mp hj
      simp [dictGet_dictSetdefault_self, hw]

/-- C1 (witness): a fresh session claimed by a member yields
`verified=true`, `join_source=1`, one notification. -/
theorem C1_start_reconciliation_witness :
    dictGet (start initState (some ⟨5, none⟩)
        (some ⟨some "/start join_X", none, []⟩)
        (OracleResult.ok "member")).state.appVerified "X" = some true ∧
    dictGet (start initState (some ⟨5, none⟩)
        (some ⟨some "/start join_X", none, []⟩)
        (OracleResult.ok "member")).state.appJoinSource "X" = some 1 ∧
    (start initState (some ⟨5, none⟩)
        (some ⟨some "/start join_X", none, []⟩)
        (OracleResult.ok "member")).adminNotifs.length = 1 := by
  have h := C1_start_reconciliation initState ⟨5, none⟩ "/start join_X" "X" "member"
    (start initState (some ⟨5, none⟩)
      (some ⟨some "/start join_X", none, []⟩) (OracleResult.ok "member"))
    rfl rfl
  have h1 := h.1 rfl
  exact ⟨h1.1, (h1.2.1 rfl).1, (h1.2.1 rfl).2⟩

/-! ### Claim C6: broadcast tally -/

theorem mem_insertSorted (x a : Int) (l : List Int) :
    a ∈ insertSorted x l ↔ a = x ∨ a ∈ l := by
  induction l with
  | nil => simp [insertSorted]
  | cons y ys ih =>
      by_cases h : x ≤ y
      · simp [insertSorted, h]
      · simp [insertSorted, h, ih]
        tauto

theorem nodup_insertSorted (x : Int) (l : List Int) (hx : x ∉ l) (hl : l.Nodup) :
    (insertSorted x l).Nodup := by
  induction l with
  | nil => simp [insertSorted]
  | cons y ys ih =>
      rw [List.mem_cons, not_or] at hx
      rw [List.nodup_cons] at hl
      by_cases h : x ≤ y
      · rw [insertSorted, if_pos h, List.nodup_cons, List.nodup_cons]
        refine ⟨?_, hl.1, hl.2⟩
        rw [List.mem_cons, not_or]
        exact hx
      · rw [insertSorted, if_neg h, List.nodup_cons]
        refine ⟨?_, ih hx.2 hl.2⟩
        rw [mem_insertSorted, not_or]
        exact ⟨fun hyx => hx.1 hyx.symm, hl.1⟩

theorem sortInts_cons (x : Int) (xs : List Int) :
    sortInts (x :: xs) = insertSorted x (sortInts xs) := rfl

theorem mem_sortInts (a : Int) (l : List Int) : a ∈ sortInts l ↔ a ∈ l := by
  induction l with
  | nil => simp [sortInts]
  | cons x xs ih => rw [sortInts_cons, mem_insertSorted, ih, List.mem_cons]

theorem nodup_sortInts (l : List Int) (h : l.Nodup) : (sortInts l).Nodup := by
  induction l with
  | nil => simp [sortInts]
  | cons x xs ih =>
      rw [List.nodup_cons] at h
      rw [sortInts_cons]
      exact nodup_insertSorted x (sortInts xs)
        (fun hx => h.1 ((mem_sortInts x xs).mp hx)) (ih h.2)

theorem mem_dedupInts (a : Int) (l : List Int) : a ∈ dedupInts l ↔ a ∈ l := by
  induction l with
  | nil => simp [dedupInts]
  | cons x xs ih =>
      by_cases h : x ∈ xs
      · rw [dedupInts, if_pos h, ih, List.mem_cons]
        constructor
        · exact Or.inr
        · rintro (rfl | ha)
          · exact h
          · exact ha
      · rw [dedupInts, if_neg h, List.mem_cons, ih, List.mem_cons]

theorem nodup_dedupInts (l : List Int) : (dedupInts l).Nodup := by
  induction l with
  | nil => simp [dedupInts]
  | cons x xs ih =>
      by_cases h : x ∈ xs
      · rw [dedupInts, if_pos h]
        exact ih
      · rw [dedupInts, if_neg h, List.nodup_cons]
        exact ⟨fun hx => h ((mem_dedupInts x xs).mp hx), ih⟩

theorem nodup_userIds (st : RegState) : (userIds st).Nodup :=
  nodup_sortInts _ (nodup_dedupInts _)

theorem sendAllLoop_tally (f : Int → Option String) (l : List Int) :
    (sendAllLoop f l).1 + (sendAllLoop f l).2.1 = l.length := by
  induction l with
  | nil => rfl
  | cons uid rest ih =>
      cases hf : f uid <;> simp [sendAllLoop, hf] <;> omega

theorem sendAllLoop_errors (f : Int → Option String) (l : List Int) :
    (sendAllLoop f l).2.2 =
      (l.filter (fun u => (f u).isSome)).map (fun u => errLine u (f u)) := by
  induction l with
  | nil => rfl
  | cons uid rest ih =>
      cases hf : f uid <;> simp [sendAllLoop, hf, ih]

/-- C6: an authorized broadcast over the N distinct non-zero user ids in
`APP_USER` reports `sent + failed = N`; the error list is exactly one
formatted line per failing recipient (the recipient list has no
duplicates); and the error sample printed in the summary, `errors[:10]`,
has at most 10 entries. -/
theorem C6_broadcast_tally (adminIds : List Int) (st : RegState) (u : TgUser)
    (m : Msg) (sendRes : Int → Option String) (t : String) (r : SendAllResult)
    (hadm : u.id ∈ adminIds)
    (ht : sendAllText m = some t) (hne : t ≠ "")
    (hids : (userIds st).isEmpty = false)
    (hr : r = cmd_send_all adminIds st (some u) (some m) sendRes) :
    r.sent + r.failed = (userIds st).length ∧
    r.errors = ((userIds st).filter (fun uid => (sendRes uid).isSome)).map
      (fun uid => errLine uid (sendRes uid)) ∧
    (userIds st).Nodup ∧
    ((userIds st).filter (fun uid => (sendRes uid).isSome)).Nodup ∧
    (r.errors.take 10).length ≤ 10 := by
  subst hr
  simp only [cmd_send_all, ht, hadm, if_true, hne, hids, if_neg, if_false,
    Bool.false_eq_true]
  refine ⟨sendAllLoop_tally sendRes (userIds st), sendAllLoop_errors sendRes (userIds st),
    nodup_userIds st, (nodup_userIds st).filter _, ?_⟩
  rw [List.length_take]
  exact min_le_left _ _

/-- C6 (witness): three sessions over two distinct users plus one failing
recipient. -/
theorem C6_broadcast_tally_witness :
    (cmd_send_all [1] ⟨[("A", 5), ("B", 7), ("C", 5)], [], []⟩ (some ⟨1, none⟩)
        (some ⟨some "/sendall hello", none, []⟩)
        (fun uid => if uid = 7 then some "blocked" else none)).sent +
      (cmd_send_all [1] ⟨[("A", 5), ("B", 7), ("C", 5)], [], []⟩ (some ⟨1, none⟩)
        (some ⟨some "/sendall hello", none, []⟩)
        (fun uid => if uid = 7 then some "blocked" else none)).failed =
      (userIds ⟨[("A", 5), ("B", 7), ("C", 5)], [], []⟩).length ∧
    (cmd_send_all [1] ⟨[("A", 5), ("B", 7), ("C", 5)], [], []⟩ (some ⟨1, none⟩)
        (some ⟨some "/sendall hello", none, []⟩)
        (fun uid => if uid = 7 then some "blocked" else none)).errors =
      ((userIds ⟨[("A", 5), ("B", 7), ("C", 5)], [], []⟩).filter
        (fun uid => ((fun uid => if uid = 7 then some "blocked" else none) uid).isSome)).map
        (fun uid => errLine uid ((fun uid => if uid = 7 then some "blocked" else none) uid)) ∧
    (userIds ⟨[("A", 5), ("B", 7), ("C", 5)], [], []⟩).Nodup ∧
    ((userIds ⟨[("A", 5), ("B", 7), ("C", 5)], [], []⟩).filter
      (fun uid => ((fun uid => if uid = 7 then some "blocked" else none) uid).isSome)).Nodup ∧
    (((cmd_send_all [1] ⟨[("A", 5), ("B", 7), ("C", 5)], [], []⟩ (some ⟨1, none⟩)
        (some ⟨some "/sendall hello", none, []⟩)
        (fun uid => if uid = 7 then some "blocked" else none)).errors).take 10).length ≤ 10 :=
  C6_broadcast_tally [1] ⟨[("A", 5), ("B", 7), ("C", 5)], [], []⟩ ⟨1, none⟩
    ⟨some "/sendall hello", none, []⟩
    (fun uid => if uid = 7 then some "blocked" else none) "hello" _
    (by decide) rfl (by decide) rfl rfl

/-! ### Claim C2: join_source transition discipline -/

/-- Reachability invariant: any `app_id` with a `join_source` entry also
has a verified entry (every code path writing `APP_JOIN_SOURCE` writes
`APP_VERIFIED` for the same key in the same step, and verified entries are
never deleted). -/
def VerifiedCoversJS (st : RegState) : Prop :=
  ∀ a, dictGet st.appJoinSource a ≠ none → dictGet st.appVerified a ≠ none

/-- The single-step `join_source` transitions the code can make for one
key: an unset value may stay unset or be created as 0, 1 or 2; `0` may
only stay or become `2`; `1` may only stay or become `2`; `2` is final.
Values other than 0/1/2 are never written — the `some (_ + 3)` arm is
unconstrained but proved unreachable from the initial state by the
`InRange3` conjuncts of the claim theorem. -/
def jsStepOk : Option Nat → Option Nat → Prop
  | none, o => o = none ∨ o = some 0 ∨ o = some 1 ∨ o = some 2
  | some 0, o => o = some 0 ∨ o = some 2
  | some 1, o => o = some 1 ∨ o = some 2
  | some 2, o => o = some 2
  | some (_ + 3), _ => True

/-- The values `join_source` can hold: unset, or one of 0, 1, 2. -/
def InRange3 (o : Option Nat) : Prop :=
  o = none ∨ o = some 0 ∨ o = some 1 ∨ o = some 2

theorem jsStepOk_refl (o : Option Nat) : jsStepOk o o := by
  match o with
  | none => exact Or.inl rfl
  | some 0 => exact Or.inl rfl
  | some 1 => exact Or.inl rfl
  | some 2 => rfl
  | some (_ + 3) => trivial

theorem jsStepOk_two (o : Option Nat) : jsStepOk o (some 2) := by
  match o with
  | none => exact Or.inr (Or.inr (Or.inr rfl))
  | some 0 => exact Or.inr rfl
  | some 1 => exact Or.inr rfl
  | some 2 => rfl
  | some (_ + 3) => trivial

/-- An allowed step from an in-range value lands in range, so values
outside unset/0/1/2 never appear along a run. -/
theorem jsStepOk_range (o o' : Option Nat) (h : InRange3 o) (hs : jsStepOk o o') :
    InRange3 o' := by
  unfold InRange3 at h ⊢
  rcases h with rfl | rfl | rfl | rfl
  · exact hs
  · rcases hs with rfl | rfl
    · exact Or.inr (Or.inl rfl)
    · exact Or.inr (Or.inr (Or.inr rfl))
  · rcases hs with rfl | rfl
    · exact Or.inr (Or.inr (Or.inl rfl))
    · exact Or.inr (Or.inr (Or.inr rfl))
  · rw [hs]
    exact Or.inr (Or.inr (Or.inr rfl))

theorem cmd_menu_state (ai : List Int) (st : RegState) (u : Option TgUser)
    (m : Option Msg) : (cmd_menu ai st u m).state = st := by
  rcases u with _ | u
  · rfl
  rcases m with _ | m
  · rfl
  unfold cmd_menu
  repeat' split
  all_goals rfl

theorem cmd_stats_state (ai : List Int) (st : RegState) (u : Option TgUser)
    (m : Option Msg) : (cmd_stats ai st u m).state = st := by
  rcases u with _ | u
  · rfl
  rcases m with _ | m
  · rfl
  unfold cmd_stats
  repeat' split
  all_goals rfl

theorem cmd_send_all_state (ai : List Int) (st : RegState) (u : Option TgUser)
    (m : Option Msg) (f : Int → Option String) :
    (cmd_send_all ai st u m f).state = st := by
  rcases u with _ | u
  · rfl
  rcases m with _ | m
  · rfl
  unfold cmd_send_all
  repeat' split
  all_goals dsimp only
  all_goals repeat' split
  all_goals rfl

theorem cmd_send_state (ai : List Int) (st : RegState) (u : Option TgUser)
    (m : Option Msg) (f : Int → Option String) :
    (cmd_send ai st u m f).state = st := by
  rcases u with _ | u
  · rfl
  rcases m with _ | m
  · rfl
  unfold cmd_send
  repeat' split
  all_goals dsimp only
  all_goals repeat' split
  all_goals rfl

theorem start_step (st : RegState) (u? : Option TgUser) (m? : Option Msg)
    (o : OracleResult) (hinv : VerifiedCoversJS st) :
    (∀ a, jsStepOk (dictGet st.appJoinSource a)
        (dictGet (start st u? m? o).state.appJoinSource a)) ∧
    VerifiedCoversJS (start st u? m? o).state := by
  rcases m? with _ | m
  · exact ⟨fun a => jsStepOk_refl _, hinv⟩
  rcases u? with _ | u
  · exact ⟨fun a => jsStepOk_refl _, hinv⟩
  unfold start
  cases hps : parseStartPayload (pyStrip (m.text.getD "")) with
  | none =>
      simp only [hps]
      exact ⟨fun a => jsStepOk_refl _, hinv⟩
  | some app_id =>
      simp only [hps]
      cases o with
      | err => exact ⟨fun a => jsStepOk_refl _, hinv⟩
      | ok status =>
          cases hm : isMemberStatus status with
          | false =>
              simp only [hm, Bool.false_eq_true, if_false]
              constructor
              · intro a
                by_cases ha : a = app_id
                · subst ha
                  cases hj : dictGet st.appJoinSource a with
                  | none =>
                      simp only [dictGet_dictSetdefault_self, hj]
                      exact Or.inr (Or.inl rfl)
                  | some w =>
                      simp only [dictGet_dictSetdefault_self, hj]
                      exact jsStepOk_refl _
                · simp only [dictGet_dictSetdefault_ne _ _ _ _ ha]
                  exact jsStepOk_refl _
              · intro a hja
                by_cases ha : a = app_id
                · subst ha
                  simp only [dictGet_dictSet_self]
                  exact Option.some_ne_none _
                · rw [dictGet_dictSetdefault_ne _ _ _ _ ha] at hja
                  rw [dictGet_dictSet_ne _ _ _ _ ha]
                  exact hinv a hja
          | true =>
              simp only [hm, if_true]
              cases hv : dictGet st.appVerified app_id with
              | none =>
                  simp only [hv]
                  constructor
                  · intro a
                    by_cases ha : a = app_id
                    · subst ha
                      have hja : dictGet st.appJoinSource a = none := by
                        by_contra hne
                        exact hinv a hne hv
                      rw [hja]
                      simp only [dictGet_dictSet_self]
                      exact Or.inr (Or.inr (Or.inl rfl))
                    · simp only [dictGet_dictSet_ne _ _ _ _ ha]
                      exact jsStepOk_refl _
                  · intro a hja
                    by_cases ha : a = app_id
                    · subst ha
                      simp only [dictGet_dictSet_self]
                      exact Option.some_ne_none _
                    · rw [dictGet_dictSet_ne _ _ _ _ ha] at hja
                      rw [dictGet_dictSet_ne _ _ _ _ ha]
                      exact hinv a hja
              | some b =>
                  cases b with
                  | false =>
                      simp only [hv]
                      constructor
                      · intro a
                        by_cases ha : a = app_id
                        · subst ha
                          simp only [dictGet_dictSet_self]
                          exact jsStepOk_two _
                        · simp only [dictGet_dictSet_ne _ _ _ _ ha]
                          exact jsStepOk_refl _
                      · intro a hja
                        by_cases ha : a = app_id
                        · subst ha
                          simp only [dictGet_dictSet_self]
                          exact Option.some_ne_none _
                        · rw [dictGet_dictSet_ne _ _ _ _ ha] at hja
                          rw [dictGet_dictSet_ne _ _ _ _ ha]
                          exact hinv a hja
                  | true =>
                      simp only [hv]
                      constructor
                      · intro a
                        exact jsStepOk_refl _
                      · intro a hja
                        by_cases ha : a = app_id
                        · subst ha
                          simp only [dictGet_dictSet_self]
                          exact Option.some_ne_none _
                        · rw [dictGet_dictSet_ne _ _ _ _ ha]
                          exact hinv a hja

theorem js2_trans (js : List (String × Nat)) (k : String) (a : String) :
    jsStepOk (dictGet js a) (dictGet (dictSet js k 2) a) := by
  by_cases ha : a = k
  · subst ha
    rw [dictGet_dictSet_self]
    exact jsStepOk_two _
  · rw [dictGet_dictSet_ne _ _ _ _ ha]
    exact jsStepOk_refl _

theorem inv_set_ver_js2 (st : RegState) (k : String) (v : Bool)
    (hinv : VerifiedCoversJS st) (a : String)
    (hja : dictGet (dictSet st.appJoinSource k 2) a ≠ none) :
    dictGet (dictSet st.appVerified k v) a ≠ none := by
  by_cases ha : a = k
  · subst ha
    rw [dictGet_dictSet_self]
    exact Option.some_ne_none _
  · rw [dictGet_dictSet_ne _ _ _ _ ha] at hja
    rw [dictGet_dictSet_ne _ _ _ _ ha]
    exact hinv a hja

theorem inv_set_ver (st : RegState) (k : String) (v : Bool)
    (hinv : VerifiedCoversJS st) (a : String)
    (hja : dictGet st.appJoinSource a ≠ none) :
    dictGet (dictSet st.appVerified k v) a ≠ none := by
  by_cases ha : a = k
  · subst ha
    rw [dictGet_dictSet_self]
    exact Option.some_ne_none _
  · rw [dictGet_dictSet_ne _ _ _ _ ha]
    exact hinv a hja

theorem check_join_step (as : String) (st : RegState) (ready : Bool)
    (appId secret : String) (o : OracleResult) (cu : Option String)
    (hinv : VerifiedCoversJS st) :
    (∀ a, jsStepOk (dictGet st.appJoinSource a)
        (dictGet (check_join as st ready appId secret o cu).state.appJoinSource a)) ∧
    VerifiedCoversJS (check_join as st ready appId secret o cu).state := by
  unfold check_join
  split
  · exact ⟨fun a => jsStepOk_refl _, hinv⟩
  split
  · exact ⟨fun a => jsStepOk_refl _, hinv⟩
  split
  · exact ⟨fun a => jsStepOk_refl _, hinv⟩
  split
  · exact ⟨fun a => jsStepOk_refl _, hinv⟩
  repeat' split
  all_goals dsimp only
  all_goals repeat' split
  all_goals
    first
      | exact ⟨fun a => js2_trans st.appJoinSource appId a,
          fun a hja => inv_set_ver_js2 st appId _ hinv a hja⟩
      | exact ⟨fun a => jsStepOk_refl _,
          fun a hja => inv_set_ver st appId _ hinv a hja⟩

theorem stepOp_step (as : String) (ai : List Int) (st : RegState) (op : Op)
    (hinv : VerifiedCoversJS st) :
    (∀ a, jsStepOk (dictGet st.appJoinSource a)
        (dictGet (stepOp as ai st op).appJoinSource a)) ∧
    VerifiedCoversJS (stepOp as ai st op) := by
  cases op with
  | checkJoin ready a s o cu => exact check_join_step as st ready a s o cu hinv
  | update c =>
      cases c with
      | cStart u m o => exact start_step st u m o hinv
      | cMenu u m =>
          have h : stepOp as ai st (Op.update (Cmd.cMenu u m)) = st :=
            cmd_menu_state ai st u m
          rw [h]
          exact ⟨fun a => jsStepOk_refl _, hinv⟩
      | cStats u m =>
          have h : stepOp as ai st (Op.update (Cmd.cStats u m)) = st :=
            cmd_stats_state ai st u m
          rw [h]
          exact ⟨fun a => jsStepOk_refl _, hinv⟩
      | cSendAll u m f =>
          have h : stepOp as ai st (Op.update (Cmd.cSendAll u m f)) = st :=
            cmd_send_all_state ai st u m f
          rw [h]
          exact ⟨fun a => jsStepOk_refl _, hinv⟩
      | cSend u m f =>
          have h : stepOp as ai st (Op.update (Cmd.cSend u m f)) = st :=
            cmd_send_state ai st u m f
          rw [h]
          exact ⟨fun a => jsStepOk_refl _, hinv⟩

theorem runOps_inv (as : String) (ai : List Int) (ops : List Op) (st : RegState)
    (hinv : VerifiedCoversJS st) : VerifiedCoversJS (runOps as ai st ops) := by
  induction ops generalizing st with
  | nil => exact hinv
  | cons op rest ih => exact ih _ (stepOp_step as ai st op hinv).2

/-- Both invariants — "join_source entry implies verified entry" and
"join_source values are unset/0/1/2" — hold along every run. -/
theorem runOps_inv2 (as : String) (ai : List Int) (ops : List Op) (st : RegState)
    (h1 : VerifiedCoversJS st)
    (h2 : ∀ a, InRange3 (dictGet st.appJoinSource a)) :
    VerifiedCoversJS (runOps as ai st ops) ∧
    (∀ a, InRange3 (dictGet (runOps as ai st ops).appJoinSource a)) := by
  induction ops generalizing st with
  | nil => exact ⟨h1, h2⟩
  | cons op rest ih =>
      have hstep := stepOp_step as ai st op h1
      exact ih _ hstep.2 (fun a => jsStepOk_range _ _ (h2 a) (hstep.1 a))

/-- C2 (counterexample): a session whose `join_source` is 1 CAN later have
`join_source` 2 — `/start join_X` by a member sets it to 1; a later
`/start join_X` while not a member resets `verified` to `false` but keeps
`join_source = 1`; a final `/start join_X` after rejoining sees
`prev_verified = false` and overwrites `join_source` with 2. -/
theorem C2_cex :
    dictGet (runOps "s" [] initState
      [Op.update (Cmd.cStart (some ⟨5, none⟩)
        (some ⟨some "/start join_X", none, []⟩)
        (OracleResult.ok "member"))]).appJoinSource "X" = some 1 ∧
    dictGet (runOps "s" [] initState
      [Op.update (Cmd.cStart (some ⟨5, none⟩)
        (some ⟨some "/start join_X", none, []⟩) (OracleResult.ok "member")),
       Op.update (Cmd.cStart (some ⟨5, none⟩)
        (some ⟨some "/start join_X", none, []⟩) (OracleResult.ok "left")),
       Op.update (Cmd.cStart (some ⟨5, none⟩)
        (some ⟨some "/start join_X", none, []⟩)
        (OracleResult.ok "member"))]).appJoinSource "X" = some 2 :=
  ⟨rfl, rfl⟩

/-- C2 (amended): along every operation sequence from the initial empty
registries, each session's `join_source` only ever holds unset, 0, 1 or 2
(the `InRange3` conjuncts, for the state before and after any step), and
each step makes only these transitions: from unset it stays unset or is
created as 0, 1 or 2; `0` stays `0` or becomes `2`; `1` stays `1` or
becomes `2` (the `1 → 2` step happens when `verified` was meanwhile reset
to `false`); `2` is never changed.  In particular it is never reset to
unset, never goes back from 2 to 1 or to 0, and contrary to the original
claim `1 → 2` is possible. -/
theorem C2_join_source_transitions (apiSecret : String) (adminIds : List Int)
    (ops : List Op) (op : Op) (a : String) :
    jsStepOk
      (dictGet (runOps apiSecret adminIds initState ops).appJoinSource a)
      (dictGet (stepOp apiSecret adminIds
        (runOps apiSecret adminIds initState ops) op).appJoinSource a) ∧
    InRange3 (dictGet (runOps apiSecret adminIds initState ops).appJoinSource a) ∧
    InRange3 (dictGet (stepOp apiSecret adminIds
        (runOps apiSecret adminIds initState ops) op).appJoinSource a) := by
  have hrun := runOps_inv2 apiSecret adminIds ops initState
    (fun _ h => (h rfl).elim) (fun _ => Or.inl rfl)
  have hstep := stepOp_step apiSecret adminIds _ op hrun.1
  exact ⟨hstep.1 a, hrun.2 a, jsStepOk_range _ _ (hrun.2 a) (hstep.1 a)⟩

end JoinBot
